import Mathlib

/-!
Verification of the emissions-factors module: the enumeration normalizers,
the CO2-equivalence multiplier pairs, and the grid carbon-intensity table
resolver with its five hardcoded reference datasets.

Machine floats of the source hold exact decimal literals that are only
selected and copied, never combined arithmetically, so values are embedded
as rationals: `dec m e` transcribes the decimal literal with digit string
`m` and `e` decimal places.
-/

/-- `dec m e` is the rational `m / 10 ^ e`, the exact value of a decimal
source literal with digits `m` and `e` places after the point. -/
def dec (m e : Nat) : ℚ := mkRat m (10 ^ e)

/-- Enumeration `CO2EQ_SOURCE` from the source. -/
inductive CO2EQ_SOURCE
  | AR5_WITH_FEEDBACK
  | AR4
  | SAR
deriving DecidableEq

/-- Enumeration `GRID_SOURCE` from the source. -/
inductive GRID_SOURCE
  | META
  | IPCC
deriving DecidableEq

/-- Enumeration `GRID_RANGE` from the source. -/
inductive GRID_RANGE
  | MEAN
  | HIGH
  | LOW
deriving DecidableEq

/-- Python `str` of a `GRID_SOURCE` member, as interpolated into the
resolver's error message. -/
def GRID_SOURCE.str : GRID_SOURCE → String
  | .META => "GRID_SOURCE.META"
  | .IPCC => "GRID_SOURCE.IPCC"

/-- One row of a reference dataset: the source keeps rows
`[year, medium, high, low]` in a pandas DataFrame. -/
structure GridRow where
  year : Nat
  medium : ℚ
  high : ℚ
  low : ℚ
deriving DecidableEq

/-- ASCII lower-casing of one character, as Python `str.lower` acts on the
ASCII inputs this module receives. -/
def lower_char (c : Char) : Char :=
  if 65 ≤ c.toNat ∧ c.toNat ≤ 90 then Char.ofNat (c.toNat + 32) else c

/-- ASCII lower-casing of a string, modelling Python `str.lower`. -/
def lower_string (s : String) : String := ⟨s.data.map lower_char⟩

/-- Reference dataset `_world_meta_1` from the source (columns Year, medium, high, low);
`dec m e` transcribes the source literal with digits `m` and `e` decimal places. -/
def _world_meta_1 : List GridRow := [
  ⟨2015, dec 580491641 9, dec 726805942 9, dec 444419682 9⟩,
  ⟨2016, dec 580381730 9, dec 726494196 9, dec 444511607 9⟩,
  ⟨2017, dec 580191808 9, dec 726117383 9, dec 444508574 9⟩,
  ⟨2018, dec 579932742 9, dec 725684840 9, dec 444422987 9⟩,
  ⟨2019, dec 579613986 9, dec 725204693 9, dec 444265621 9⟩,
  ⟨2020, dec 581083120 9, dec 726403172 9, dec 446005409 9⟩,
  ⟨2021, dec 578829123 9, dec 724128766 9, dec 443771822 9⟩,
  ⟨2022, dec 578376324 9, dec 723544325 9, dec 443450666 9⟩,
  ⟨2023, dec 577890875 9, dec 722935374 9, dec 443088717 9⟩,
  ⟨2024, dec 577377675 9, dec 722306095 9, dec 442691597 9⟩,
  ⟨2025, dec 576724036 9, dec 721565698 9, dec 442124716 9⟩,
  ⟨2026, dec 576284921 9, dec 721000946 9, dec 441811237 9⟩,
  ⟨2027, dec 575712661 9, dec 720331282 9, dec 441336382 9⟩,
  ⟨2028, dec 575127412 9, dec 719653850 9, dec 440843316 9⟩,
  ⟨2029, dec 574531990 9, dec 718971040 9, dec 440335281 9⟩,
  ⟨2030, dec 573264022 9, dec 717635960 9, dec 439134425 9⟩,
  ⟨2031, dec 573320545 9, dec 717597727 9, dec 439285704 9⟩,
  ⟨2032, dec 572708901 9, dec 716910953 9, dec 438749190 9⟩,
  ⟨2033, dec 572095895 9, dec 716226301 9, dec 438207831 9⟩,
  ⟨2034, dec 571483259 9, dec 715545242 9, dec 437663617 9⟩,
  ⟨2035, dec 570821497 9, dec 714820866 9, dec 437064470 9⟩,
  ⟨2036, dec 570265395 9, dec 714199285 9, dec 436573847 9⟩,
  ⟨2037, dec 569663069 9, dec 713536875 9, dec 436031604 9⟩,
  ⟨2038, dec 569066909 9, dec 712883028 9, dec 435493132 9⟩,
  ⟨2039, dec 568478136 9, dec 712238796 9, dec 434959817 9⟩,
  ⟨2040, dec 567083308 9, dec 710887186 9, dec 433521771 9⟩,
  ⟨2041, dec 567327331 9, dec 710983152 9, dec 433913852 9⟩,
  ⟨2042, dec 566767481 9, dec 710373641 9, dec 433403663 9⟩,
  ⟨2043, dec 566219394 9, dec 709777559 9, dec 432903570 9⟩,
  ⟨2044, dec 565684079 9, dec 709195799 9, dec 432414701 9⟩,
  ⟨2045, dec 565044176 9, dec 708501694 9, dec 431829000 9⟩,
  ⟨2046, dec 564655700 9, dec 708078732 9, dec 431475009 9⟩,
  ⟨2047, dec 564164556 9, dec 707545143 9, dec 431026311 9⟩,
  ⟨2048, dec 563690051 9, dec 707029331 9, dec 430593113 9⟩,
  ⟨2049, dec 563233144 9, dec 706532169 9, dec 430176460 9⟩,
  ⟨2050, dec 563942003 9, dec 707108074 9, dec 431018275 9⟩,
  ⟨2051, dec 562376012 9, dec 705597348 9, dec 429397017 9⟩,
  ⟨2052, dec 561977781 9, dec 705161518 9, dec 429036385 9⟩,
  ⟨2053, dec 561601149 9, dec 704748013 9, dec 428696627 9⟩,
  ⟨2054, dec 561247194 9, dec 704357833 9, dec 428378896 9⟩,
  ⟨2055, dec 560917031 9, dec 703992021 9, dec 428084382 9⟩,
  ⟨2056, dec 560611819 9, dec 703651663 9, dec 427814318 9⟩,
  ⟨2057, dec 560332776 9, dec 703337903 9, dec 427569991 9⟩,
  ⟨2058, dec 560081211 9, dec 703051332 9, dec 427353431 9⟩,
  ⟨2059, dec 559858464 9, dec 702793863 9, dec 427165406 9⟩,
  ⟨2060, dec 559324305 9, dec 702254712 9, dec 426636240 9⟩
]

/-- Reference dataset `_world_ipcc` from the source (columns Year, medium, high, low);
`dec m e` transcribes the source literal with digits `m` and `e` decimal places. -/
def _world_ipcc : List GridRow := [
  ⟨2015, dec 484233479886851 15, dec 954301230978324 15, dec 415714611547194 15⟩,
  ⟨2016, dec 483874688367180 15, dec 953705808726241 15, dec 415699168023559 15⟩,
  ⟨2017, dec 483468578344429 15, dec 953091499730308 15, dec 415616211090683 15⟩,
  ⟨2018, dec 483022233781448 15, dec 952462141044895 15, dec 415474739683663 15⟩,
  ⟨2019, dec 482541827613129 15, dec 951821094094534 15, dec 415282575858891 15⟩,
  ⟨2020, dec 483415642278809 15, dec 952177536197487 15, dec 416520905499686 15⟩,
  ⟨2021, dec 481499412617218 15, dec 950514955984204 15, dec 414772457309720 15⟩,
  ⟨2022, dec 480945957200632 15, dec 949854330000227 15, dec 414465552432322 15⟩,
  ⟨2023, dec 480375890793439 15, dec 949191227373746 15, dec 414130387202149 15⟩,
  ⟨2024, dec 479792370097929 15, dec 948527306071946 15, dec 413771028606294 15⟩,
  ⟨2025, dec 479129875365096 15, dec 947838144272479 15, dec 413292094853295 15⟩,
  ⟨2026, dec 478595824341775 15, dec 947202675323842 15, dec 412993759718887 15⟩,
  ⟨2027, dec 477987474489965 15, dec 946544387335615 15, dec 412581910201081 15⟩,
  ⟨2028, dec 477375134675864 15, dec 945890189693049 15, dec 412158128728530 15⟩,
  ⟨2029, dec 476760604919920 15, dec 945241007845619 15, dec 411724756299051 15⟩,
  ⟨2030, dec 475609144710954 15, dec 944163265130839 15, dec 410760518917611 15⟩,
  ⟨2031, dec 475531330098496 15, dec 943960978462593 15, dec 410837481063205 15⟩,
  ⟨2032, dec 474919397316536 15, dec 943331597296287 15, dec 410387213255880 15⟩,
  ⟨2033, dec 474310925799146 15, dec 942710164328208 15, dec 409934674540315 15⟩,
  ⟨2034, dec 473707024060823 15, dec 942097253091754 15, dec 409481302620380 15⟩,
  ⟨2035, dec 473069619537973 15, dec 941464119365002 15, dec 408987650013088 15⟩,
  ⟨2036, dec 472516992530166 15, dec 940899134962305 15, dec 408577287386756 15⟩,
  ⟨2037, dec 471932749289687 15, dec 940314944696740 15, dec 408129046349254 15⟩,
  ⟨2038, dec 471356840757086 15, dec 939741296080086 15, dec 407684776056632 15⟩,
  ⟨2039, dec 470790067978465 15, dec 939178632698648 15, dec 407245483451931 15⟩,
  ⟨2040, dec 469678044528875 15, dec 938292812842989 15, dec 406144087639722 15⟩,
  ⟨2041, dec 469686967218630 15, dec 938087976021352 15, dec 406385614113651 15⟩,
  ⟨2042, dec 469152097173049 15, dec 937560823287853 15, dec 405966833587310 15⟩,
  ⟨2043, dec 468629288818192 15, dec 937046343521181 15, dec 405556634681864 15⟩,
  ⟨2044, dec 468119232533872 15, dec 936544954506346 15, dec 405155846275011 15⟩,
  ⟨2045, dec 467511263814817 15, dec 935948980928557 15, dec 404676293987320 15⟩,
  ⟨2046, dec 467140086966888 15, dec 935583127327976 15, dec 404385713672719 15⟩,
  ⟨2047, dec 466672338575004 15, dec 935123538476659 15, dec 404017937790258 15⟩,
  ⟨2048, dec 466220041675584 15, dec 934678754794794 15, dec 403662724592571 15⟩,
  ⟨2049, dec 465783884392082 15, dec 934249237215735 15, dec 403320851377671 15⟩,
  ⟨2050, dec 466202378014719 15, dec 934415166260444 15, dec 403919169849744 15⟩,
  ⟨2051, dec 464962806154690 15, dec 933437918543026 15, dec 402680273560695 15⟩,
  ⟨2052, dec 464579339264012 15, dec 933057121808404 15, dec 402383178115162 15⟩,
  ⟨2053, dec 464214935271267 15, dec 932693614309824 15, dec 402102653404484 15⟩,
  ⟨2054, dec 463870395799940 15, dec 932347969864178 15, dec 401839564471306 15⟩,
  ⟨2055, dec 463546558438388 15, dec 932020795519145 15, dec 401594806949223 15⟩,
  ⟨2056, dec 463244298699963 15, dec 931712733709783 15, dec 401369308350724 15⟩,
  ⟨2057, dec 462964541559962 15, dec 931424469977991 15, dec 401164041108521 15⟩,
  ⟨2058, dec 462707434123228 15, dec 931155096821641 15, dec 400980275898344 15⟩,
  ⟨2059, dec 462474856382921 15, dec 930907038457189 15, dec 400818857404330 15⟩,
  ⟨2060, dec 462020537057214 15, dec 930512636676233 15, dec 400404559244924 15⟩
]

/-- Reference dataset `_world_meta_2` from the source (columns Year, medium, high, low);
`dec m e` transcribes the source literal with digits `m` and `e` decimal places. -/
def _world_meta_2 : List GridRow := [
  ⟨2015, dec 619753649484954 15, dec 834200994227942 15, dec 446911398737087 15⟩,
  ⟨2016, dec 613223327855322 15, dec 827419241197181 15, dec 441324423346894 15⟩,
  ⟨2017, dec 606715005275064 15, dec 817903147977287 15, dec 436594799095373 15⟩,
  ⟨2018, dec 602650482222055 15, dec 811957311805342 15, dec 433711588716669 15⟩,
  ⟨2019, dec 599546311600711 15, dec 808809196292089 15, dec 431043861809484 15⟩,
  ⟨2020, dec 595844101320605 15, dec 805066315637190 15, dec 427859783304937 15⟩,
  ⟨2021, dec 592313613174105 15, dec 801495614192573 15, dec 424823161474647 15⟩,
  ⟨2022, dec 588839905934230 15, dec 797975220897886 15, dec 421832598087871 15⟩,
  ⟨2023, dec 585449295836798 15, dec 794534135403531 15, dec 418911809360421 15⟩,
  ⟨2024, dec 582134106340607 15, dec 791164960038795 15, dec 416054306144423 15⟩,
  ⟨2025, dec 579212349557159 15, dec 788184425039760 15, dec 413534464382670 15⟩,
  ⟨2026, dec 575701698847632 15, dec 784615063765847 15, dec 410505236766206 15⟩,
  ⟨2027, dec 572571412159762 15, dec 781421736177582 15, dec 407802618493011 15⟩,
  ⟨2028, dec 569490331287843 15, dec 778275031115247 15, dec 405141116198009 15⟩,
  ⟨2029, dec 566452830841887 15, dec 775169515850856 15, dec 402515970114720 15⟩,
  ⟨2030, dec 563582610910188 15, dec 772224408553539 15, dec 400032800926231 15⟩,
  ⟨2031, dec 560487575191628 15, dec 769061765323778 15, dec 397356976482730 15⟩,
  ⟨2032, dec 557549996015452 15, dec 766050030587511 15, dec 394814811934275 15⟩,
  ⟨2033, dec 554636302401122 15, dec 763060441667938 15, dec 392292329996334 15⟩,
  ⟨2034, dec 551742154484868 15, dec 760088796218024 15, dec 389785854191242 15⟩,
  ⟨2035, dec 548784376564443 15, dec 757051944289887 15, dec 387224226526241 15⟩,
  ⟨2036, dec 545979252104998 15, dec 754165935635464 15, dec 384793649089973 15⟩,
  ⟨2037, dec 543106698312767 15, dec 751211316808699 15, dec 382304463418555 15⟩,
  ⟨2038, dec 540236787794954 15, dec 748258161570859 15, dec 379817005842378 15⟩,
  ⟨2039, dec 537352597396159 15, dec 745289123477943 15, dec 377317616531354 15⟩,
  ⟨2040, dec 534257808148527 15, dec 742113543256056 15, dec 374637411133684 15⟩,
  ⟨2041, dec 531581023073820 15, dec 739345510659962 15, dec 372313849192314 15⟩,
  ⟨2042, dec 528685258247064 15, dec 736362655581270 15, dec 369802465048003 15⟩,
  ⟨2043, dec 525775521926616 15, dec 733365101778856 15, dec 367278694303595 15⟩,
  ⟨2044, dec 522848765756972 15, dec 730349877395092 15, dec 364739945323485 15⟩,
  ⟨2045, dec 519796747547837 15, dec 727206616166885 15, dec 362092302098936 15⟩,
  ⟨2046, dec 516932341500910 15, dec 724254851488976 15, dec 359607432066743 15⟩,
  ⟨2047, dec 513936894157109 15, dec 721169405528371 15, dec 357008750494339 15⟩,
  ⟨2048, dec 510912853777991 15, dec 718054985950131 15, dec 354385243670808 15⟩,
  ⟨2049, dec 508316537396635 15, dec 715381773638989 15, dec 352134907312678 15⟩,
  ⟨2050, dec 506594921787481 15, dec 713622488394168 15, dec 350653654650227 15⟩,
  ⟨2051, dec 504688929275709 15, dec 711690195955989 15, dec 349010631116045 15⟩,
  ⟨2052, dec 502854324722711 15, dec 709827677277282 15, dec 347428887775673 15⟩,
  ⟨2053, dec 500981466874364 15, dec 707928699401097 15, dec 345814547929372 15⟩,
  ⟨2054, dec 499068430228993 15, dec 705991414176679 15, dec 344165978406253 15⟩,
  ⟨2055, dec 497072403296562 15, dec 703969699319331 15, dec 342445358912229 15⟩,
  ⟨2056, dec 495114656946048 15, dec 701995050774066 15, dec 340760075761759 15⟩,
  ⟨2057, dec 493070596435275 15, dec 699932787017676 15, dec 338999924825479 15⟩,
  ⟨2058, dec 490979702541600 15, dec 697825838098367 15, dec 337199902765339 15⟩,
  ⟨2059, dec 488840556318235 15, dec 695672846558836 15, dec 335358807437345 15⟩,
  ⟨2060, dec 486810301162345 15, dec 693612676011530 15, dec 333607332510495 15⟩
]

/-- Reference dataset `_world_meta_3` from the source (columns Year, medium, high, low);
`dec m e` transcribes the source literal with digits `m` and `e` decimal places. -/
def _world_meta_3 : List GridRow := [
  ⟨2015, dec 617381627523255 15, dec 830817877069664 15, dec 446511800066534 15⟩,
  ⟨2016, dec 613053711917674 15, dec 824698901512021 15, dec 443404400078671 15⟩,
  ⟨2017, dec 605559021113794 15, dec 815532512015463 15, dec 437490678056033 15⟩,
  ⟨2018, dec 599823764037522 15, dec 807926586189615 15, dec 433230012701179 15⟩,
  ⟨2019, dec 596692109138654 15, dec 804739279793431 15, dec 430557603413934 15⟩,
  ⟨2020, dec 592956465174414 15, dec 800948724769081 15, dec 427367828954101 15⟩,
  ⟨2021, dec 589394210498330 15, dec 797332726214472 15, dec 424325795194590 15⟩,
  ⟨2022, dec 585889940804312 15, dec 793768752747037 15, dec 421330025011830 15⟩,
  ⟨2023, dec 582469966488571 15, dec 790285795690257 15, dec 418404233626765 15⟩,
  ⟨2024, dec 579126508336472 15, dec 786876310967440 15, dec 415541914399482 15⟩,
  ⟨2025, dec 576180723793771 15, dec 783861513867133 15, dec 413017979130062 15⟩,
  ⟨2026, dec 572640473126760 15, dec 780249944881284 15, dec 409983708694097 15⟩,
  ⟨2027, dec 569484653817574 15, dec 777020209351351 15, dec 407276740536253 15⟩,
  ⟨2028, dec 566378787697806 15, dec 773838162055771 15, dec 404611015683456 15⟩,
  ⟨2029, dec 563317175272247 15, dec 770698264597087 15, dec 401981761744236 15⟩,
  ⟨2030, dec 560425096459919 15, dec 767721987885512 15, dec 399494868550752 15⟩,
  ⟨2031, dec 557305440093151 15, dec 764524237131432 15, dec 396814849591601 15⟩,
  ⟨2032, dec 554345365121137 15, dec 761480424779140 15, dec 394268852529604 15⟩,
  ⟨2033, dec 551409591841439 15, dec 758459351619903 15, dec 391742608972507 15⟩,
  ⟨2034, dec 548493724307989 15, dec 755456735336789 15, dec 389232432888142 15⟩,
  ⟨2035, dec 545513743488868 15, dec 752388223445871 15, dec 386667022609245 15⟩,
  ⟨2036, dec 542688055628436 15, dec 749472892651180 15, dec 384232941873367 15⟩,
  ⟨2037, dec 539794403434954 15, dec 746488188806800 15, dec 381740161756609 15⟩,
  ⟨2038, dec 536903541206374 15, dec 743505157722919 15, dec 379249134726127 15⟩,
  ⟨2039, dec 533998346916998 15, dec 740506169378769 15, dec 376746167071146 15⟩,
  ⟨2040, dec 530880184208068 15, dec 737297260044097 15, dec 374061979635782 15⟩,
  ⟨2041, dec 528185054593160 15, dec 734503069266229 15, dec 371735292412725 15⟩,
  ⟨2042, dec 525268472346747 15, dec 731490529832329 15, dec 369220361692718 15⟩,
  ⟨2043, dec 522337858549740 15, dec 728463206037271 15, dec 366693034140975 15⟩,
  ⟨2044, dec 519390127508675 15, dec 725418072781803 15, dec 364150711760779 15⟩,
  ⟨2045, dec 516316182594658 15, dec 722243545426141 15, dec 361499332976304 15⟩,
  ⟨2046, dec 513431317163278 15, dec 719262606929121 15, dec 359010977365359 15⟩,
  ⟨2047, dec 510414388803142 15, dec 716146530365413 15, dec 356408636163102 15⟩,
  ⟨2048, dec 507368630222783 15, dec 713001141973038 15, dec 353781429301529 15⟩,
  ⟨2049, dec 504753471538005 15, dec 710301061700499 15, dec 351527882859898 15⟩,
  ⟨2050, dec 503017662563427 15, dec 708521537592850 15, dec 350044212133840 15⟩,
  ⟨2051, dec 501095097574196 15, dec 706565613824964 15, dec 348398365216802 15⟩,
  ⟨2052, dec 499244741360773 15, dec 704680634250964 15, dec 346813938332699 15⟩,
  ⟨2053, dec 497355610112209 15, dec 702758451510754 15, dec 345196826056066 15⟩,
  ⟨2054, dec 495425752440293 15, dec 700797180540976 15, dec 343545390805835 15⟩,
  ⟨2055, dec 493412239186826 15, dec 698750531269397 15, dec 341821792241291 15⟩,
  ⟨2056, dec 491436597471548 15, dec 696750365038799 15, dec 340133460333253 15⟩,
  ⟨2057, dec 489373931181422 15, dec 694661570589733 15, dec 338370139609077 15⟩,
  ⟨2058, dec 487263793557604 15, dec 692527181299305 15, dec 336566839076065 15⟩,
  ⟨2059, dec 485104746166210 15, dec 690345811922819 15, dec 334722353270288 15⟩,
  ⟨2060, dec 483057064536976 15, dec 688260792300398 15, dec 332967909468916 15⟩
]

/-- Reference dataset `_world_meta_4` from the source (columns Year, medium, high, low);
`dec m e` transcribes the source literal with digits `m` and `e` decimal places. -/
def _world_meta_4 : List GridRow := [
  ⟨2015, dec 619731238862595 15, dec 833329897638502 15, dec 447394567903417 15⟩,
  ⟨2016, dec 613191401904823 15, dec 826475738292122 15, dec 441840091403282 15⟩,
  ⟨2017, dec 606673460423821 15, dec 816888151363190 15, dec 437142332630907 15⟩,
  ⟨2018, dec 602621620826105 15, dec 810921431890408 15, dec 434283943572488 15⟩,
  ⟨2019, dec 599517169584422 15, dec 807763244481335 15, dec 431621781691129 15⟩,
  ⟨2020, dec 595814617939265 15, dec 804008111709454 15, dec 428444472850274 15⟩,
  ⟨2021, dec 592283805449719 15, dec 800425769093762 15, dec 425414283117659 15⟩,
  ⟨2022, dec 588809786160664 15, dec 796894175873816 15, dec 422429908026953 15⟩,
  ⟨2023, dec 585418876248296 15, dec 793442329560030 15, dec 419515064976376 15⟩,
  ⟨2024, dec 582103398123095 15, dec 790062794855959 15, dec 416663285607405 15⟩,
  ⟨2025, dec 579181396011097 15, dec 787073454637732 15, dec 414148308994488 15⟩,
  ⟨2026, dec 575670443079687 15, dec 783493246155346 15, dec 411125074787444 15⟩,
  ⟨2027, dec 572539895698304 15, dec 780290561875727 15, dec 408427626368065 15⟩,
  ⟨2028, dec 569458561763715 15, dec 777134774004723 15, dec 405771142598445 15⟩,
  ⟨2029, dec 566420815129301 15, dec 774020422657726 15, dec 403150878716958 15⟩,
  ⟨2030, dec 563550372013766 15, dec 771067304949067 15, dec 400672135522024 15⟩,
  ⟨2031, dec 560455084913133 15, dec 767895639229866 15, dec 398001296275715 15⟩,
  ⟨2032, dec 557517276050081 15, dec 764875660678135 15, dec 395463686683625 15⟩,
  ⟨2033, dec 554603356997654 15, dec 761877980438385 15, dec 392945675443809 15⟩,
  ⟨2034, dec 551708987319473 15, dec 758898375611644 15, dec 390443597434166 15⟩,
  ⟨2035, dec 548750982702714 15, dec 755853387203211 15, dec 387886465419616 15⟩,
  ⟨2036, dec 545945648286556 15, dec 752959842879268 15, dec 385460051667747 15⟩,
  ⟨2037, dec 543072879075145 15, dec 749997492326640 15, dec 382975138007765 15⟩,
  ⟨2038, dec 540202754635895 15, dec 747036659119172 15, dec 380491922741082 15⟩,
  ⟨2039, dec 537318349782893 15, dec 744059923934800 15, dec 377996786304940 15⟩,
  ⟨2040, dec 534223321887233 15, dec 740875778267926 15, dec 375321313573634 15⟩,
  ⟨2041, dec 531546349510856 15, dec 738101023126640 15, dec 373001466040980 15⟩,
  ⟨2042, dec 528650372133802 15, dec 735110539290677 15, dec 370494297014854 15⟩,
  ⟨2043, dec 525740422649863 15, dec 732105334722523 15, dec 367974753548975 15⟩,
  ⟨2044, dec 522813452322305 15, dec 729082423881671 15, dec 365440251567938 15⟩,
  ⟨2045, dec 519761210236833 15, dec 725931127387228 15, dec 362797048070022 15⟩,
  ⟨2046, dec 516896595295224 15, dec 722971865157726 15, dec 360316320660926 15⟩,
  ⟨2047, dec 513900928625662 15, dec 719878547258031 15, dec 357721988571989 15⟩,
  ⟨2048, dec 510876666499075 15, dec 716756168821856 15, dec 355102879257204 15⟩,
  ⟨2049, dec 508280157733779 15, dec 714076051555076 15, dec 352856358095056 15⟩,
  ⟨2050, dec 506558397207335 15, dec 712311565005700 15, dec 351377979310044 15⟩,
  ⟨2051, dec 504652235487031 15, dec 710373199412923 15, dec 349738311376714 15⟩,
  ⟨2052, dec 502817470106218 15, dec 708504908376451 15, dec 348159757437882 15⟩,
  ⟨2053, dec 500944446102982 15, dec 706599966945595 15, dec 346548712635171 15⟩,
  ⟨2054, dec 499031237711340 15, dec 704656517483214 15, dec 344903549039207 15⟩,
  ⟨2055, dec 497035032239839 15, dec 702628394583901 15, dec 343186470181391 15⟩,
  ⟨2056, dec 495077103173832 15, dec 700647188098395 15, dec 341504810490442 15⟩,
  ⟨2057, dec 493032852694081 15, dec 698578106063043 15, dec 339748426858670 15⟩,
  ⟨2058, dec 490941762317814 15, dec 696464105081149 15, dec 337952301275530 15⟩,
  ⟨2059, dec 488802412899276 15, dec 694303820554168 15, dec 336115235542782 15⟩,
  ⟨2060, dec 486771979815374 15, dec 692237263896700 15, dec 334367289134159 15⟩
]

/-- The state built by `CO2Equiv.__init__`: the resolved conversion source
and the two multipliers. -/
structure CO2Equiv where
  conversion_source : CO2EQ_SOURCE
  CH4multiplier : Nat
  N2Omultiplier : Nat
deriving DecidableEq

/-- `CO2Equiv.__init__`: `None` (here `none`) falls back to
`AR5_WITH_FEEDBACK`, then the multipliers are set per standard. -/
def CO2Equiv.init (conversion_source : Option CO2EQ_SOURCE) : CO2Equiv :=
  match conversion_source.getD CO2EQ_SOURCE.AR5_WITH_FEEDBACK with
  | .AR5_WITH_FEEDBACK => ⟨.AR5_WITH_FEEDBACK, 34, 298⟩
  | .AR4 => ⟨.AR4, 25, 298⟩
  | .SAR => ⟨.SAR, 21, 310⟩

/-- `string_to_conversion_source` from the source: an if-chain on the
lower-cased text, raising `ValueError` (here `Except.error`) otherwise. -/
def string_to_conversion_source (text : String) : Except String CO2EQ_SOURCE :=
  if lower_string text = "ar5 with feedback" then .ok .AR5_WITH_FEEDBACK
  else if lower_string text = "ar5_with_feedback" then .ok .AR5_WITH_FEEDBACK
  else if lower_string text = "ar4" then .ok .AR4
  else if lower_string text = "sar" then .ok .SAR
  else .error ("invalid conversion name=" ++ text)

/-- `string_to_emissions_grid_source` from the source. -/
def string_to_emissions_grid_source (text : String) : Except String GRID_SOURCE :=
  if lower_string text = "meta-analysis" then .ok .META
  else if lower_string text = "meta_analysis" then .ok .META
  else if lower_string text = "meta analysis" then .ok .META
  else if lower_string text = "ipcc only" then .ok .IPCC
  else if lower_string text = "ipcc_only" then .ok .IPCC
  else .error ("invalid grid source name=" ++ text)

/-- `string_to_emissions_grid_range` from the source. -/
def string_to_emissions_grid_range (text : String) : Except String GRID_RANGE :=
  if lower_string text = "mean" then .ok .MEAN
  else if lower_string text = "median" then .ok .MEAN
  else if lower_string text = "high" then .ok .HIGH
  else if lower_string text = "low" then .ok .LOW
  else .error ("invalid grid range name=" ++ text)

/-- The two fields of the advanced-controls object `ac` that
`ElectricityGenOnGrid` reads. -/
structure AdvancedControls where
  emissions_grid_source : GRID_SOURCE
  emissions_grid_range : GRID_RANGE

/-- The state of an `ElectricityGenOnGrid` instance after `__init__`. -/
structure ElectricityGenOnGrid where
  ac : AdvancedControls
  grid_emissions_version : Int

/-- `ElectricityGenOnGrid.__init__` called without the
`grid_emissions_version` argument, whose declared default is `1`. -/
def ElectricityGenOnGrid.initDefault (ac : AdvancedControls) : ElectricityGenOnGrid :=
  ⟨ac, 1⟩

/-- A result table: rows `(year, [(column, value), ...])` with the columns
in the DataFrame's declared order. -/
abbrev YearlyTable := List (Nat × List (String × ℚ))

/-- The 10 columns declared for the result DataFrame. -/
def tableColumns : List String :=
  ["World", "OECD90", "Eastern Europe", "Asia (Sans Japan)",
   "Middle East and Africa", "Latin America", "China", "India", "EU", "USA"]

/-- The 9 fixed per-region assignments of `conv_ref_grid_CO2eq_per_KWh`,
in column order after "World". -/
def regionTail : List (String × ℚ) :=
  [("OECD90", dec 454068989 9), ("Eastern Europe", dec 724747956 9),
   ("Asia (Sans Japan)", dec 457658947 9), ("Middle East and Africa", dec 282243907 9),
   ("Latin America", dec 564394712 9), ("China", dec 535962403 9),
   ("India", dec 787832379 9), ("EU", dec 360629290 9), ("USA", dec 665071666 9)]

/-- The grid-selection if-chain of `conv_ref_grid_CO2eq_per_KWh`: IPCC
ignores the version; META requires version 1..4, and the fall-through
raises a `ValueError` whose message interpolates
`self.ac.emissions_grid_source`. -/
def selectGrid (gs : GRID_SOURCE) (version : Int) : Except String (List GridRow) :=
  match gs with
  | .IPCC => .ok _world_ipcc
  | .META =>
    if version = 1 then .ok _world_meta_1
    else if version = 2 then .ok _world_meta_2
    else if version = 3 then .ok _world_meta_3
    else if version = 4 then .ok _world_meta_4
    else .error ("Invalid self.ac.emissions_grid_source " ++ GRID_SOURCE.str .META)

/-- The range if-chain of `conv_ref_grid_CO2eq_per_KWh`: which dataset
column fills "World". The chain is total on the closed `GRID_RANGE`. -/
def selectColumn (gr : GRID_RANGE) : GridRow → ℚ :=
  match gr with
  | .HIGH => GridRow.high
  | .LOW => GridRow.low
  | .MEAN => GridRow.medium

/-- Assembly of the result DataFrame: the index is `range(2015, 2061)`, the
"World" column is filled positionally from the selected dataset column, and
the other nine columns get the fixed constants. -/
def assembleTable (grid : List GridRow) (gr : GRID_RANGE) : YearlyTable :=
  ((List.range' 2015 46).zip (grid.map (selectColumn gr))).map
    (fun p => (p.1, ("World", p.2) :: regionTail))

/-- `ElectricityGenOnGrid.conv_ref_grid_CO2eq_per_KWh` from the source. -/
def ElectricityGenOnGrid.conv_ref_grid_CO2eq_per_KWh (self : ElectricityGenOnGrid) :
    Except String YearlyTable :=
  (selectGrid self.ac.emissions_grid_source self.grid_emissions_version).map
    (fun grid => assembleTable grid self.ac.emissions_grid_range)

/-- The single row of `conv_ref_grid_CO2_per_KWh`: every year gets these
ten constants. -/
def conv_ref_CO2_row : List (String × ℚ) :=
  [("World", dec 484512031078339 15), ("OECD90", dec 392126590013504 15),
   ("Eastern Europe", dec 659977316856384 15), ("Asia (Sans Japan)", dec 385555833578110 15),
   ("Middle East and Africa", dec 185499981045723 15), ("Latin America", dec 491537630558014 15),
   ("China", dec 474730312824249 15), ("India", dec 725081980228424 15),
   ("EU", dec 297016531229019 15), ("USA", dec 594563066959381 15)]

/-- `ElectricityGenOnGrid.conv_ref_grid_CO2_per_KWh` from the source:
index `range(2015, 2061)`, each column a constant, nothing read from
`self`. -/
def ElectricityGenOnGrid.conv_ref_grid_CO2_per_KWh (_self : ElectricityGenOnGrid) :
    YearlyTable :=
  (List.range' 2015 46).map (fun y => (y, conv_ref_CO2_row))

/-- The spec's resolver entry point `resolve_co2eq_grid_table`: build the
`ElectricityGenOnGrid` with the given configuration and call
`conv_ref_grid_CO2eq_per_KWh`. -/
def resolve_co2eq_grid_table (gs : GRID_SOURCE) (gr : GRID_RANGE) (version : Int) :
    Except String YearlyTable :=
  (ElectricityGenOnGrid.mk ⟨gs, gr⟩ version).conv_ref_grid_CO2eq_per_KWh

/-- Cell lookup in a `YearlyTable` by year and column name. -/
def getCell (t : YearlyTable) (year : Nat) (col : String) : Option ℚ :=
  match t.find? (fun r => r.1 == year) with
  | some r => (r.2.find? (fun c => c.1 == col)).map Prod.snd
  | none => none

/-- The "World" cell of a resolver result at a year, `none` on error. -/
def worldAt (e : Except String YearlyTable) (year : Nat) : Option ℚ :=
  match e with
  | .ok t => getCell t year "World"
  | .error _ => none

/-- Whether a `(grid_source, version)` pair reaches a dataset in the
selection if-chain: IPCC always, META only for versions 1..4. -/
def valid_version (gs : GRID_SOURCE) (version : Int) : Bool :=
  match gs with
  | .IPCC => true
  | .META => version == 1 || version == 2 || version == 3 || version == 4

/-- The synonym spellings recognized by `string_to_conversion_source`. -/
def conversion_source_synonyms : List String :=
  ["ar5 with feedback", "ar5_with_feedback", "ar4", "sar"]

/-- The synonym spellings recognized by `string_to_emissions_grid_source`. -/
def grid_source_synonyms : List String :=
  ["meta-analysis", "meta_analysis", "meta analysis", "ipcc only", "ipcc_only"]

/-- The synonym spellings recognized by `string_to_emissions_grid_range`. -/
def grid_range_synonyms : List String :=
  ["mean", "median", "high", "low"]

/-- Whether `needle` starts the list `hay`, character by character. -/
def startsWith : List Char → List Char → Bool
  | [], _ => true
  | _ :: _, [] => false
  | a :: as, b :: bs => a == b && startsWith as bs

/-- Whether `needle` occurs contiguously anywhere in `hay`. -/
def containsSeq (needle : List Char) : List Char → Bool
  | [] => startsWith needle []
  | c :: rest => startsWith needle (c :: rest) || containsSeq needle rest

theorem selectGrid_ok_of_valid (gs : GRID_SOURCE) (v : Int)
    (h : valid_version gs v = true) :
    ∃ grid, selectGrid gs v = Except.ok grid ∧ grid.length = 46 := by
  cases gs with
  | IPCC => exact ⟨_world_ipcc, rfl, by decide⟩
  | META =>
    simp only [valid_version, Bool.or_eq_true, beq_iff_eq] at h
    rcases h with ((h | h) | h) | h <;> subst h
    · exact ⟨_world_meta_1, rfl, by decide⟩
    · exact ⟨_world_meta_2, rfl, by decide⟩
    · exact ⟨_world_meta_3, rfl, by decide⟩
    · exact ⟨_world_meta_4, rfl, by decide⟩

theorem assembleTable_row_tail (grid : List GridRow) (gr : GRID_RANGE) :
    ∀ r ∈ assembleTable grid gr, r.2.tail = regionTail := by
  intro r hr
  simp only [assembleTable, List.mem_map] at hr
  obtain ⟨p, _hp, rfl⟩ := hr
  rfl

theorem assembleTable_row_columns (grid : List GridRow) (gr : GRID_RANGE) :
    ∀ r ∈ assembleTable grid gr, r.2.map Prod.fst = tableColumns := by
  intro r hr
  simp only [assembleTable, List.mem_map] at hr
  obtain ⟨p, _hp, rfl⟩ := hr
  rfl

theorem assembleTable_years (grid : List GridRow) (gr : GRID_RANGE)
    (h : 46 ≤ grid.length) :
    (assembleTable grid gr).map Prod.fst = List.range' 2015 46 := by
  unfold assembleTable
  rw [List.map_map]
  have hc : ((fun p : Nat × List (String × ℚ) => p.1) ∘
      fun p : Nat × ℚ => (p.1, ("World", p.2) :: regionTail)) = Prod.fst := rfl
  rw [show (Prod.fst ∘ fun p : Nat × ℚ => (p.1, ("World", p.2) :: regionTail)) =
      (Prod.fst : Nat × ℚ → Nat) from rfl]
  exact List.map_fst_zip _ _ (by simp [h])

theorem resolve_eq_of_selectGrid (gs : GRID_SOURCE) (gr : GRID_RANGE) (v : Int)
    (grid : List GridRow) (hg : selectGrid gs v = Except.ok grid) :
    resolve_co2eq_grid_table gs gr v = Except.ok (assembleTable grid gr) := by
  simp [resolve_co2eq_grid_table, ElectricityGenOnGrid.conv_ref_grid_CO2eq_per_KWh, hg,
    Except.map]

/-- C1: for grid_source=META, grid_range=LOW, dataset_version=3, the
resolved table's "World" value at year 2050 is 0.350044212133840, the
"low" value of the META v3 dataset at that year. -/
theorem c1_meta3_low_world_2050 :
    worldAt (resolve_co2eq_grid_table GRID_SOURCE.META GRID_RANGE.LOW 3) 2050 =
      some (dec 350044212133840 15) ∧
    ∃ r ∈ _world_meta_3, r.year = 2050 ∧ r.low = dec 350044212133840 15 :=
  ⟨rfl, by decide⟩

/-- C2: for every dataset_version, the resolver with grid_source=IPCC and
grid_range=HIGH puts 0.954301230978324 in the "World" column at year 2015,
and the whole result does not depend on the version argument. -/
theorem c2_ipcc_high_world_2015 (v : Int) :
    worldAt (resolve_co2eq_grid_table GRID_SOURCE.IPCC GRID_RANGE.HIGH v) 2015 =
      some (dec 954301230978324 15) ∧
    resolve_co2eq_grid_table GRID_SOURCE.IPCC GRID_RANGE.HIGH v =
      resolve_co2eq_grid_table GRID_SOURCE.IPCC GRID_RANGE.HIGH 1 :=
  ⟨rfl, rfl⟩

/-- C3: for every valid configuration, every row of the resolved table
carries, after "World", exactly the nine fixed region constants of
`regionTail` (OECD90 = 0.454068989, ..., USA = 0.665071666), independent
of grid_source, grid_range and dataset_version. -/
theorem c3_region_columns_invariant (gs : GRID_SOURCE) (gr : GRID_RANGE) (v : Int)
    (h : valid_version gs v = true) :
    ∃ t, resolve_co2eq_grid_table gs gr v = Except.ok t ∧
      ∀ r ∈ t, r.2.tail = regionTail := by
  obtain ⟨grid, hg, -⟩ := selectGrid_ok_of_valid gs v h
  exact ⟨assembleTable grid gr, resolve_eq_of_selectGrid gs gr v grid hg,
    assembleTable_row_tail grid gr⟩

theorem c3_witness :
    valid_version GRID_SOURCE.META 3 = true ∧
    (∃ t, resolve_co2eq_grid_table GRID_SOURCE.META GRID_RANGE.MEAN 3 = Except.ok t ∧
      ∀ r ∈ t, r.2.tail = regionTail) :=
  ⟨by decide, c3_region_columns_invariant GRID_SOURCE.META GRID_RANGE.MEAN 3 (by decide)⟩

/-- C4: for every valid configuration, the resolved table has exactly 46
rows indexed by the years 2015..2060 in steps of 1, and every row carries
exactly the 10 columns of `tableColumns` in order. -/
theorem c4_table_shape (gs : GRID_SOURCE) (gr : GRID_RANGE) (v : Int)
    (h : valid_version gs v = true) :
    ∃ t, resolve_co2eq_grid_table gs gr v = Except.ok t ∧
      t.length = 46 ∧ t.map Prod.fst = List.range' 2015 46 ∧
      ∀ r ∈ t, r.2.map Prod.fst = tableColumns := by
  obtain ⟨grid, hg, hlen⟩ := selectGrid_ok_of_valid gs v h
  have hy := assembleTable_years grid gr (by omega)
  refine ⟨assembleTable grid gr, resolve_eq_of_selectGrid gs gr v grid hg, ?_, hy,
    assembleTable_row_columns grid gr⟩
  have : ((assembleTable grid gr).map Prod.fst).length = 46 := by rw [hy]; simp
  simpa using this

theorem c4_witness :
    valid_version GRID_SOURCE.META 2 = true ∧
    (∃ t, resolve_co2eq_grid_table GRID_SOURCE.META GRID_RANGE.HIGH 2 = Except.ok t ∧
      t.length = 46 ∧ t.map Prod.fst = List.range' 2015 46 ∧
      ∀ r ∈ t, r.2.map Prod.fst = tableColumns) :=
  ⟨by decide, c4_table_shape GRID_SOURCE.META GRID_RANGE.HIGH 2 (by decide)⟩

/-- C5 counterexample: at grid_source=META, grid_range=MEAN, version 99 the
resolver raises, but its message is the misleading
"Invalid self.ac.emissions_grid_source GRID_SOURCE.META": the digit string
"99" does not occur in it, so the error does not name the version. -/
theorem c5_counterexample :
    resolve_co2eq_grid_table GRID_SOURCE.META GRID_RANGE.MEAN 99 =
      Except.error "Invalid self.ac.emissions_grid_source GRID_SOURCE.META" ∧
    containsSeq "99".data
      "Invalid self.ac.emissions_grid_source GRID_SOURCE.META".data = false :=
  ⟨rfl, by decide⟩

/-- C5 amended: with grid_source=META and a version outside {1,2,3,4} the
resolver fails (no table is returned), but the ValueError message names the
grid source, not the received version value. -/
theorem c5_amended_error_names_source (gr : GRID_RANGE) (v : Int)
    (h : valid_version GRID_SOURCE.META v = false) :
    resolve_co2eq_grid_table GRID_SOURCE.META gr v =
      Except.error ("Invalid self.ac.emissions_grid_source " ++
        GRID_SOURCE.str GRID_SOURCE.META) := by
  simp only [valid_version, Bool.or_eq_false_iff, beq_eq_false_iff_ne] at h
  obtain ⟨⟨⟨h1, h2⟩, h3⟩, h4⟩ := h
  simp [resolve_co2eq_grid_table, ElectricityGenOnGrid.conv_ref_grid_CO2eq_per_KWh,
    selectGrid, h1, h2, h3, h4, Except.map]

theorem c5_witness :
    valid_version GRID_SOURCE.META 99 = false ∧
    resolve_co2eq_grid_table GRID_SOURCE.META GRID_RANGE.MEAN 99 =
      Except.error ("Invalid self.ac.emissions_grid_source " ++
        GRID_SOURCE.str GRID_SOURCE.META) :=
  ⟨by decide, c5_amended_error_names_source GRID_RANGE.MEAN 99 (by decide)⟩

/-- C6: the multiplier pairs (CH4, N2O) are (34, 298) for
AR5_WITH_FEEDBACK, (25, 298) for AR4, (21, 310) for SAR, and the omitted
standard behaves exactly like AR5_WITH_FEEDBACK. -/
theorem c6_co2equiv_multipliers :
    (CO2Equiv.init (some CO2EQ_SOURCE.AR5_WITH_FEEDBACK)).CH4multiplier = 34 ∧
    (CO2Equiv.init (some CO2EQ_SOURCE.AR5_WITH_FEEDBACK)).N2Omultiplier = 298 ∧
    (CO2Equiv.init (some CO2EQ_SOURCE.AR4)).CH4multiplier = 25 ∧
    (CO2Equiv.init (some CO2EQ_SOURCE.AR4)).N2Omultiplier = 298 ∧
    (CO2Equiv.init (some CO2EQ_SOURCE.SAR)).CH4multiplier = 21 ∧
    (CO2Equiv.init (some CO2EQ_SOURCE.SAR)).N2Omultiplier = 310 ∧
    CO2Equiv.init none = CO2Equiv.init (some CO2EQ_SOURCE.AR5_WITH_FEEDBACK) := by
  decide

/-- C7: any case variant of "median" and any case variant of "mean"
normalize to GRID_RANGE.MEAN, and the two canonical spellings give the
same result. -/
theorem c7_median_mean_synonym (s : String)
    (h : lower_string s = "median" ∨ lower_string s = "mean") :
    string_to_emissions_grid_range s = Except.ok GRID_RANGE.MEAN ∧
    string_to_emissions_grid_range "median" = string_to_emissions_grid_range "mean" := by
  refine ⟨?_, rfl⟩
  rcases h with h | h <;> simp [string_to_emissions_grid_range, h]

theorem c7_witness :
    (lower_string "MeDiAn" = "median" ∨ lower_string "MeDiAn" = "mean") ∧
    (string_to_emissions_grid_range "MeDiAn" = Except.ok GRID_RANGE.MEAN ∧
     string_to_emissions_grid_range "median" = string_to_emissions_grid_range "mean") :=
  ⟨Or.inl (by decide), c7_median_mean_synonym "MeDiAn" (Or.inl (by decide))⟩

/-- C8: each normalizer succeeds exactly when the lower-cased input is one
of its fixed synonym spellings, and otherwise fails with the error message
carrying the offending raw text. -/
theorem c8_normalizer_totality (s : String) :
    ((∃ v, string_to_conversion_source s = Except.ok v) ↔
      lower_string s ∈ conversion_source_synonyms) ∧
    (string_to_conversion_source s = Except.error ("invalid conversion name=" ++ s) ↔
      lower_string s ∉ conversion_source_synonyms) ∧
    ((∃ v, string_to_emissions_grid_source s = Except.ok v) ↔
      lower_string s ∈ grid_source_synonyms) ∧
    (string_to_emissions_grid_source s = Except.error ("invalid grid source name=" ++ s) ↔
      lower_string s ∉ grid_source_synonyms) ∧
    ((∃ v, string_to_emissions_grid_range s = Except.ok v) ↔
      lower_string s ∈ grid_range_synonyms) ∧
    (string_to_emissions_grid_range s = Except.error ("invalid grid range name=" ++ s) ↔
      lower_string s ∉ grid_range_synonyms) := by
  refine ⟨?_, ?_, ?_, ?_, ?_, ?_⟩ <;>
    simp only [string_to_conversion_source, string_to_emissions_grid_source,
      string_to_emissions_grid_range, conversion_source_synonyms, grid_source_synonyms,
      grid_range_synonyms, List.mem_cons, List.not_mem_nil, or_false] <;>
    split_ifs <;> simp_all

/-- C9: the direct-emissions table reads nothing from the instance, has 46
rows for the years 2015..2060, each row is the same ten fixed columns, and
"World" is 0.484512031078339 in every row. -/
theorem c9_direct_table_static (a b : ElectricityGenOnGrid) :
    a.conv_ref_grid_CO2_per_KWh = b.conv_ref_grid_CO2_per_KWh ∧
    a.conv_ref_grid_CO2_per_KWh.length = 46 ∧
    a.conv_ref_grid_CO2_per_KWh.map Prod.fst = List.range' 2015 46 ∧
    (∀ r ∈ a.conv_ref_grid_CO2_per_KWh, r.2 = conv_ref_CO2_row) ∧
    conv_ref_CO2_row.map Prod.fst = tableColumns ∧
    conv_ref_CO2_row.head? = some ("World", dec 484512031078339 15) := by
  refine ⟨rfl, rfl, rfl, ?_, rfl, rfl⟩
  intro r hr
  simp only [ElectricityGenOnGrid.conv_ref_grid_CO2_per_KWh, List.mem_map] at hr
  obtain ⟨y, _hy, rfl⟩ := hr
  rfl

/-- C10: constructing `ElectricityGenOnGrid` without an explicit version
stores version 1, so a META call of `conv_ref_grid_CO2eq_per_KWh` selects
the `_world_meta_1` dataset. -/
theorem c10_default_version_selects_meta1 (ac : AdvancedControls) (gr : GRID_RANGE) :
    (ElectricityGenOnGrid.initDefault ac).grid_emissions_version = 1 ∧
    (ElectricityGenOnGrid.initDefault ⟨GRID_SOURCE.META, gr⟩).conv_ref_grid_CO2eq_per_KWh =
      Except.ok (assembleTable _world_meta_1 gr) ∧
    selectGrid GRID_SOURCE.META
      (ElectricityGenOnGrid.initDefault ⟨GRID_SOURCE.META, gr⟩).grid_emissions_version =
      Except.ok _world_meta_1 :=
  ⟨rfl, rfl, rfl⟩
